import Mathlib

/-!
Shallow embedding of the playback-orchestrator core of `src/main.py`
(a Telegram voice-chat music bot) together with proofs about it.

Conventions of the embedding:
* Python strings are Lean `String`s; `str.strip()` / `str.lower()` are
  modelled on the underlying character list (`pyStrip`, `pyLower`), with
  whitespace taken as ASCII whitespace and lower-casing as the ASCII
  `Char.toLower` (the inputs the program cares about are ASCII URLs).
* `pat in s` (Python substring membership) is `containsSub s pat`.
* The voice-call transport (`pytgcalls`) is external: each orchestrator
  operation takes the outcome of its transport call as an explicit
  parameter (`JoinResult` / `CallResult`) and records the calls it issued
  in an `Effect` trace.  `make_stream` is modelled as the identity adapter
  on the source string (the reflection shim in the source only builds a
  stream handle from the source and is environment-dependent).
* Messages sent back to the requesting chat are recorded as abstract
  `Msg` tags; an uncaught Python exception escaping an operation is the
  `raised` flag of its `Effect`.
-/

namespace Musikkk

/-! ## Python string primitives -/

/-- Python `str.strip()` on the character list: drop ASCII whitespace from
both ends. -/
def pyStrip (s : String) : String :=
  ⟨List.rdropWhile Char.isWhitespace (s.data.dropWhile Char.isWhitespace)⟩

/-- Python `str.lower()` (ASCII). -/
def pyLower (s : String) : String :=
  ⟨s.data.map Char.toLower⟩

/-- `(s or "").strip().lower()`, the normalisation every classifier in
`src/main.py` applies first. -/
def pyNorm (s : String) : String :=
  pyLower (pyStrip s)

/-- Python `s.startswith(p)`. -/
def startsWithPy (s p : String) : Bool :=
  p.data.isPrefixOf s.data

/-- Substring scan: does `pat` occur (contiguously) inside `l`? -/
def subOccurs (pat : List Char) : List Char → Bool
  | [] => pat.isEmpty
  | c :: t => pat.isPrefixOf (c :: t) || subOccurs pat t

/-- Python `pat in s` (substring membership). -/
def containsSub (s pat : String) : Bool :=
  subOccurs pat.data s.data

/-! ## Input classifier (src/main.py lines 33-51) -/

/-- `STREAM_EXTS` from src/main.py line 34. -/
def STREAM_EXTS : List String :=
  [".m3u8", ".mp3", ".aac", ".m4a", ".ogg", ".opus", ".flac", ".wav"]

/-- `is_url` (src/main.py lines 37-39). -/
def is_url (s : String) : Bool :=
  let t := pyNorm s
  startsWithPy t "http://" || startsWithPy t "https://"

/-- `is_stream_url` (src/main.py lines 42-46): normalise, require `is_url`,
then scan for any known streaming extension anywhere in the string. -/
def is_stream_url (s : String) : Bool :=
  let u := pyNorm s
  is_url u && STREAM_EXTS.any (fun ext => containsSub u ext)

/-- The three literal alternatives of the regex `YT_RE`
(src/main.py line 33); `re.search` with these literals is a substring
scan. -/
def ytPatterns : List String :=
  ["youtube.com/watch?v=", "youtu.be/", "music.youtube.com/"]

/-- `is_youtube` (src/main.py lines 49-51): normalise, then search for any
`YT_RE` alternative as a substring (no URL-scheme requirement). -/
def is_youtube (s : String) : Bool :=
  let t := pyNorm s
  ytPatterns.any (fun p => containsSub t p)

/-- `IsPlayableStream` as worded by the specification: the trimmed,
lower-cased input starts with `http://` or `https://` and contains one of
the fixed extensions anywhere as a substring. -/
def isPlayableStreamSpec (s : String) : Bool :=
  let u := pyNorm s
  (startsWithPy u "http://" || startsWithPy u "https://") &&
    STREAM_EXTS.any (fun ext => containsSub u ext)

/-! ## Normalisation is idempotent -/

theorem toNat_ofNat_valid (n : Nat) (h : n.isValidChar) :
    (Char.ofNat n).toNat = n := by
  simp only [Char.ofNat, h, reduceDIte, Char.ofNatAux, Char.toNat]
  rfl

theorem isWhitespace_false_of_ge (x : Char) (h : 65 ≤ x.toNat) :
    x.isWhitespace = false := by
  have h1 : x ≠ ' ' := by rintro rfl; exact absurd h (by decide)
  have h2 : x ≠ '\t' := by rintro rfl; exact absurd h (by decide)
  have h3 : x ≠ '\r' := by rintro rfl; exact absurd h (by decide)
  have h4 : x ≠ '\n' := by rintro rfl; exact absurd h (by decide)
  simp [Char.isWhitespace, h1, h2, h3, h4]

theorem toLower_idem (c : Char) : c.toLower.toLower = c.toLower := by
  simp only [Char.toLower]
  split
  · next h =>
    have hv : (c.toNat + 32).isValidChar := by constructor; omega
    rw [toNat_ofNat_valid _ hv]
    split
    · next h2 => omega
    · rfl
  · rfl

theorem isWhitespace_toLower (c : Char) :
    c.toLower.isWhitespace = c.isWhitespace := by
  simp only [Char.toLower]
  split
  · next h =>
    have hv : (c.toNat + 32).isValidChar := by constructor; omega
    have hA : (Char.ofNat (c.toNat + 32)).isWhitespace = false := by
      apply isWhitespace_false_of_ge
      rw [toNat_ofNat_valid _ hv]; omega
    have hB : c.isWhitespace = false := isWhitespace_false_of_ge c (by omega)
    rw [hA, hB]
  · rfl

/-- The character list produced by a strip has no whitespace at its head,
so a second leading strip is the identity. -/
theorem dropWhile_rdropWhile_dropWhile (l : List Char) :
    List.dropWhile Char.isWhitespace
      (List.rdropWhile Char.isWhitespace
        (l.dropWhile Char.isWhitespace)) =
    List.rdropWhile Char.isWhitespace (l.dropWhile Char.isWhitespace) := by
  set d := l.dropWhile Char.isWhitespace with hd
  rcases hr : List.rdropWhile Char.isWhitespace d with _ | ⟨a, r⟩
  · rfl
  · have hpre : a :: r <+: d := hr ▸ List.rdropWhile_prefix _ _
    obtain ⟨t, ht⟩ := hpre
    have hdd : List.dropWhile Char.isWhitespace d = d := by
      rw [hd]; exact List.dropWhile_idempotent _ _
    have ha : Char.isWhitespace a = false := by
      have := hdd
      rw [← ht] at this
      by_contra hcon
      have hws : Char.isWhitespace a = true := by
        cases hws2 : Char.isWhitespace a
        · exact absurd hws2 hcon
        · rfl
      simp [List.dropWhile_cons, hws] at this
      have : (List.dropWhile Char.isWhitespace (r ++ t)).length = (r ++ t).length + 1 := by
        rw [this]; simp
      have hle := List.Sublist.length_le
        (List.dropWhile_sublist (l := r ++ t) Char.isWhitespace)
      omega
    simp [List.dropWhile_cons, ha]

theorem pyStrip_idem (s : String) : pyStrip (pyStrip s) = pyStrip s := by
  simp only [pyStrip]
  congr 1
  rw [dropWhile_rdropWhile_dropWhile]
  exact List.rdropWhile_idempotent _ _

theorem map_toLower_idem (l : List Char) :
    (l.map Char.toLower).map Char.toLower = l.map Char.toLower := by
  rw [List.map_map]
  exact List.map_congr_left fun a _ => toLower_idem a

theorem pyLower_idem (s : String) : pyLower (pyLower s) = pyLower s := by
  simp only [pyLower]
  congr 1
  exact map_toLower_idem _

/-- Lower-casing commutes with both strips, because `Char.toLower`
preserves whitespace-status. -/
theorem pyStrip_pyLower (s : String) :
    pyStrip (pyLower s) = pyLower (pyStrip s) := by
  simp only [pyStrip, pyLower, List.rdropWhile]
  congr 1
  have hcomp : (Char.isWhitespace ∘ Char.toLower) = Char.isWhitespace := by
    funext c; exact isWhitespace_toLower c
  rw [List.dropWhile_map, hcomp, ← List.map_reverse, List.dropWhile_map, hcomp,
    List.map_reverse]

theorem pyNorm_idem (s : String) : pyNorm (pyNorm s) = pyNorm s := by
  simp only [pyNorm]
  rw [pyStrip_pyLower, pyLower_idem, pyStrip_idem]

/-! ## State (src/main.py lines 132-152) -/

/-- `Track` dataclass (src/main.py lines 132-136). -/
structure Track where
  title : String
  source : String
  requester : String
deriving DecidableEq, Repr

/-- `ChatState` dataclass (src/main.py lines 139-143).  The registry `st`
creates this empty state on first access, so the empty state is every
conversation's initial state. -/
structure ChatState where
  queue : List Track
  playing : Option Track
  paused : Bool
deriving DecidableEq, Repr

/-- The state `st` lazily installs for a fresh conversation. -/
def ChatState.empty : ChatState :=
  { queue := [], playing := none, paused := false }

/-! ## Transport calls, messages and operation outcomes -/

/-- A call issued to the voice-call transport (`pytgcalls`). -/
inductive TCall where
  | joinGroupCall (chatId : Int) (source : String)
  | changeStream (chatId : Int) (source : String)
  | pauseStream (chatId : Int)
  | resumeStream (chatId : Int)
  | leaveGroupCall (chatId : Int)
deriving DecidableEq, Repr

/-- A user-facing reply, abstracted to a tag (plus the payload the claims
talk about). -/
inductive Msg where
  | nowPlaying (title requester : String)
  | vcNotActive
  | joinPlayFailed
  | queueDone
  | streamAccepted
  | queuedAt (pos : Nat)
  | formatHint
  | advisory
  | nothingPlaying
  | pausedOk
  | resumedOk
  | pauseFailed
  | resumeFailed
  | skipping
  | skipFailed
  | stopped
deriving DecidableEq, Repr

/-- Outcome of the `join_group_call` attempt (everything inside the `try`
of `ensure_join_and_play`; `otherError` covers any non-`NoActiveGroupCall`
exception). -/
inductive JoinResult where
  | ok
  | noActiveGroupCall
  | otherError
deriving DecidableEq, Repr

/-- Outcome of a change-stream / pause / resume / leave transport call. -/
inductive CallResult where
  | ok
  | err
deriving DecidableEq, Repr

/-- Result of running one handler: the new conversation state, the
transport calls it issued, the replies it sent, and whether an exception
escaped to its caller. -/
structure Effect where
  state : ChatState
  calls : List TCall
  msgs : List Msg
  raised : Bool := false
deriving DecidableEq, Repr

/-! ## Playback orchestrator (src/main.py lines 230-297) -/

/-- `ensure_join_and_play` (src/main.py lines 230-253).  No-op when a
track is already playing or the queue is empty; otherwise pops the head
into `playing`, clears `paused`, and attempts the transport join.  On
`NoActiveGroupCall` or any other failure, `playing` is reverted to
`none` (the popped track is dropped). -/
def ensure_join_and_play (chatId : Int) (s : ChatState) (jr : JoinResult) :
    Effect :=
  match s.playing, s.queue with
  | some _, _ => { state := s, calls := [], msgs := [] }
  | none, [] => { state := s, calls := [], msgs := [] }
  | none, nxt :: rest =>
    let s1 : ChatState := { queue := rest, playing := some nxt, paused := false }
    match jr with
    | .ok =>
      { state := s1
        calls := [.joinGroupCall chatId nxt.source]
        msgs := [.nowPlaying nxt.title nxt.requester] }
    | .noActiveGroupCall =>
      { state := { s1 with playing := none }
        calls := [.joinGroupCall chatId nxt.source]
        msgs := [.vcNotActive] }
    | .otherError =>
      { state := { s1 with playing := none }
        calls := [.joinGroupCall chatId nxt.source]
        msgs := [.joinPlayFailed] }

/-- `play_next` (src/main.py lines 256-279).  Clears `paused` first.
Empty queue: clear `playing`, best-effort leave (the leave outcome `lr`
is swallowed by `try/except pass`), announce exhaustion.  Otherwise pop
the head into `playing` and issue `change_stream`; a change failure
(`cr = err`) propagates as an exception and `playing` is NOT reverted. -/
def play_next (chatId : Int) (s : ChatState) (cr lr : CallResult) : Effect :=
  let s0 : ChatState := { s with paused := false }
  match s0.queue with
  | [] =>
    -- `lr` (the leave outcome) is deliberately unused: the source wraps
    -- `leave_group_call` in `try/except Exception: pass`.
    { state := { s0 with playing := none }
      calls := [.leaveGroupCall chatId]
      msgs := [.queueDone] }
  | nxt :: rest =>
    let s1 : ChatState := { queue := rest, playing := some nxt, paused := false }
    match cr with
    | .ok =>
      { state := s1
        calls := [.changeStream chatId nxt.source]
        msgs := [.nowPlaying nxt.title nxt.requester] }
    | .err =>
      { state := s1
        calls := [.changeStream chatId nxt.source]
        msgs := []
        raised := true }

/-- `on_end` (src/main.py lines 282-297), the stream-ended handler.
Non-empty queue: run `play_next`, swallowing any exception.  Empty queue:
clear `playing` and `paused` and issue a best-effort leave. -/
def on_end (chatId : Int) (s : ChatState) (cr lr : CallResult) : Effect :=
  match s.queue with
  | [] =>
    { state := { s with playing := none, paused := false }
      calls := [.leaveGroupCall chatId]
      msgs := [] }
  | _ :: _ =>
    let e := play_next chatId s cr lr
    { e with raised := false }

/-- `handle_play` (src/main.py lines 341-404).  Only the accepted
playable-stream branch (lines 348-356) touches conversation state or the
transport; the YouTube-link, keyword-search and unplayable-URL branches
(lines 359-404) are reply-only and are modelled as one `advisory`
reply. -/
def handle_play (targetChatId : Int) (s : ChatState) (query requester : String)
    (jr : JoinResult) : Effect :=
  if query = "" then
    { state := s, calls := [], msgs := [.formatHint] }
  else if is_stream_url query then
    let t : Track := { title := query, source := query, requester := requester }
    let s1 : ChatState := { s with queue := s.queue ++ [t] }
    if s1.playing.isNone then
      let e := ensure_join_and_play targetChatId s1 jr
      { e with msgs := .streamAccepted :: e.msgs }
    else
      { state := s1, calls := [], msgs := [.queuedAt s1.queue.length] }
  else
    { state := s, calls := [], msgs := [.advisory] }

/-- `pause_cmd` (src/main.py lines 425-435): no-op notice when nothing is
playing; otherwise issue the transport pause and set `paused` only on
success. -/
def pause_cmd (chatId : Int) (s : ChatState) (cr : CallResult) : Effect :=
  match s.playing with
  | none => { state := s, calls := [], msgs := [.nothingPlaying] }
  | some _ =>
    match cr with
    | .ok =>
      { state := { s with paused := true }
        calls := [.pauseStream chatId]
        msgs := [.pausedOk] }
    | .err =>
      { state := s, calls := [.pauseStream chatId], msgs := [.pauseFailed] }

/-- `resume_cmd` (src/main.py lines 438-448). -/
def resume_cmd (chatId : Int) (s : ChatState) (cr : CallResult) : Effect :=
  match s.playing with
  | none => { state := s, calls := [], msgs := [.nothingPlaying] }
  | some _ =>
    match cr with
    | .ok =>
      { state := { s with paused := false }
        calls := [.resumeStream chatId]
        msgs := [.resumedOk] }
    | .err =>
      { state := s, calls := [.resumeStream chatId], msgs := [.resumeFailed] }

/-- `skip_cmd` (src/main.py lines 451-460): guarded by `playing`, then
`play_next` with its exception caught and reported. -/
def skip_cmd (chatId : Int) (s : ChatState) (cr lr : CallResult) : Effect :=
  match s.playing with
  | none => { state := s, calls := [], msgs := [.nothingPlaying] }
  | some _ =>
    let e := play_next chatId s cr lr
    { e with
        msgs := .skipping :: (e.msgs ++ if e.raised then [.skipFailed] else [])
        raised := false }

/-- `stop_cmd` (src/main.py lines 463-473) and the identical `stop`
callback branch (lines 528-540): unconditional reset plus best-effort
leave (`lr` swallowed). -/
def stop_cmd (chatId : Int) (s : ChatState) (lr : CallResult) : Effect :=
  { state := { queue := [], playing := none, paused := false }
    calls := [.leaveGroupCall chatId]
    msgs := [.stopped] }

/-- The `pause` callback branch (src/main.py lines 503-517): toggles
between resume and pause depending on the current `paused` flag. -/
def callback_pause (chatId : Int) (s : ChatState) (cr : CallResult) : Effect :=
  match s.playing with
  | none => { state := s, calls := [], msgs := [.nothingPlaying] }
  | some _ =>
    if s.paused then
      match cr with
      | .ok =>
        { state := { s with paused := false }
          calls := [.resumeStream chatId]
          msgs := [.resumedOk] }
      | .err =>
        { state := s, calls := [.resumeStream chatId], msgs := [.pauseFailed] }
    else
      match cr with
      | .ok =>
        { state := { s with paused := true }
          calls := [.pauseStream chatId]
          msgs := [.pausedOk] }
      | .err =>
        { state := s, calls := [.pauseStream chatId], msgs := [.pauseFailed] }

/-! ## Cross-post command parsing (src/main.py lines 303-322) -/

/-- `parse_c_command` (src/main.py lines 313-322), applied to the
argument tokens `m.command[1:]`. -/
def parse_c_command (args : List String) : Option String × String :=
  match args with
  | [] => (none, "")
  | first :: rest =>
    if startsWithPy first "@" || startsWithPy first "-100" then
      (some first, pyStrip (String.intercalate " " rest))
    else
      (none, pyStrip (String.intercalate " " (first :: rest)))

/-- `resolve_target_chat_id` (src/main.py lines 303-310).  `lookup`
models `bot.get_chat` (which may fail); `Int.toInt?`-style parsing models
Python `int(t)` (which may raise); `none` is a resolution error. -/
def resolve_target_chat_id (ownChatId : Int) (lookup : String → Option Int) :
    Option String → Option Int
  | none => some ownChatId
  | some token =>
    let t := pyStrip token
    if startsWithPy t "@" then lookup t
    else t.toInt?

/-- The resolution performed by `cplay_cmd` (src/main.py lines 415-422):
parse, then resolve the target token. -/
def cplay_target (ownChatId : Int) (lookup : String → Option Int)
    (args : List String) : Option Int :=
  resolve_target_chat_id ownChatId lookup (parse_c_command args).1

/-! ## Reachable conversation states -/

/-- One externally triggered operation on a single conversation's state,
with the outcomes of its transport calls as parameters.  This covers
every code path of `src/main.py` that mutates a `ChatState`: `/play` and
`/cplay` (via `handle_play`), `/pause`, `/resume`, `/skip`, `/stop`, the
stream-ended notification, the inline-keyboard pause toggle (the `skip` /
`stop` callbacks coincide with `/skip` and `/stop`), and a raw
`play_next` advance. -/
inductive Op where
  | play (query requester : String) (jr : JoinResult)
  | pauseC (cr : CallResult)
  | resumeC (cr : CallResult)
  | skipC (cr lr : CallResult)
  | advance (cr lr : CallResult)
  | stopC (lr : CallResult)
  | streamEnd (cr lr : CallResult)
  | pauseToggle (cr : CallResult)

/-- The state component of running one operation. -/
def applyOp (chatId : Int) (s : ChatState) : Op → ChatState
  | .play q r jr => (handle_play chatId s q r jr).state
  | .pauseC cr => (pause_cmd chatId s cr).state
  | .resumeC cr => (resume_cmd chatId s cr).state
  | .skipC cr lr => (skip_cmd chatId s cr lr).state
  | .advance cr lr => (play_next chatId s cr lr).state
  | .stopC lr => (stop_cmd chatId s lr).state
  | .streamEnd cr lr => (on_end chatId s cr lr).state
  | .pauseToggle cr => (callback_pause chatId s cr).state

/-- Conversation states reachable from the empty initial state by any
sequence of operations. -/
inductive Reachable (chatId : Int) : ChatState → Prop where
  | init : Reachable chatId ChatState.empty
  | step {s : ChatState} (op : Op) :
      Reachable chatId s → Reachable chatId (applyOp chatId s op)

/-! ## Invariant preservation -/

/-- Shape every operation's result state has relative to its input state:
either `paused` and `playing` are untouched, or `paused` ends up `false`,
or `playing` ends up present.  Each alternative preserves the invariant
`paused → playing present`. -/
def InvShape (s r : ChatState) : Prop :=
  (r.paused = s.paused ∧ r.playing = s.playing) ∨
  r.paused = false ∨ r.playing.isSome = true

theorem invShape_lift {s s1 r : ChatState} (h1 : s1.paused = s.paused)
    (h2 : s1.playing = s.playing) (h : InvShape s1 r) : InvShape s r := by
  rcases h with ⟨ha, hb⟩ | h | h
  · exact Or.inl ⟨h1 ▸ ha, h2 ▸ hb⟩
  · exact Or.inr (Or.inl h)
  · exact Or.inr (Or.inr h)

theorem ensure_shape (chatId : Int) (s : ChatState) (jr : JoinResult) :
    InvShape s (ensure_join_and_play chatId s jr).state := by
  unfold ensure_join_and_play
  rcases hp : s.playing with _ | p <;> rcases hq : s.queue with _ | ⟨t, rest⟩ <;>
    cases jr <;> simp [InvShape, hp, hq]

theorem play_next_paused_false (chatId : Int) (s : ChatState) (cr lr : CallResult) :
    (play_next chatId s cr lr).state.paused = false := by
  unfold play_next
  rcases hq : s.queue with _ | ⟨t, rest⟩ <;> cases cr <;> simp [hq]

theorem on_end_shape (chatId : Int) (s : ChatState) (cr lr : CallResult) :
    InvShape s (on_end chatId s cr lr).state := by
  unfold on_end
  rcases hq : s.queue with _ | ⟨t, rest⟩
  · simp [InvShape]
  · simp only [InvShape]
    exact Or.inr (Or.inl (play_next_paused_false chatId s cr lr))

theorem handle_play_shape (chatId : Int) (s : ChatState) (q r : String)
    (jr : JoinResult) : InvShape s (handle_play chatId s q r jr).state := by
  unfold handle_play
  split
  · exact Or.inl ⟨rfl, rfl⟩
  · split
    · dsimp only
      split
      · exact invShape_lift rfl rfl (ensure_shape chatId _ jr)
      · exact Or.inl ⟨rfl, rfl⟩
    · exact Or.inl ⟨rfl, rfl⟩

theorem applyOp_shape (chatId : Int) (s : ChatState) (op : Op) :
    InvShape s (applyOp chatId s op) := by
  cases op with
  | play q r jr => exact handle_play_shape chatId s q r jr
  | pauseC cr =>
    unfold applyOp pause_cmd
    rcases hp : s.playing with _ | p <;> cases cr <;> simp [InvShape, hp]
  | resumeC cr =>
    unfold applyOp resume_cmd
    rcases hp : s.playing with _ | p <;> cases cr <;> simp [InvShape, hp]
  | skipC cr lr =>
    unfold applyOp skip_cmd
    rcases hp : s.playing with _ | p
    · simp [InvShape, hp]
    · simp only [hp, InvShape]
      exact Or.inr (Or.inl (play_next_paused_false chatId s cr lr))
  | advance cr lr =>
    exact Or.inr (Or.inl (play_next_paused_false chatId s cr lr))
  | stopC lr => exact Or.inr (Or.inl rfl)
  | streamEnd cr lr => exact on_end_shape chatId s cr lr
  | pauseToggle cr =>
    unfold applyOp callback_pause
    rcases hp : s.playing with _ | p <;> rcases hps : s.paused <;> cases cr <;>
      simp [InvShape, hp, hps]


/-! ## Concrete fixtures used by witnesses and counterexamples -/

def trackA : Track := { title := "a", source := "sa", requester := "u" }

def trackB : Track := { title := "b", source := "sb", requester := "u" }

def trackC : Track := { title := "c", source := "sc", requester := "u" }

/-- Conversation with `trackA` playing and `trackB` queued. -/
def stPlayingQueued : ChatState :=
  { queue := [trackB], playing := some trackA, paused := false }

/-- Idle conversation with one queued track. -/
def stQueuedOnly : ChatState :=
  { queue := [trackB], playing := none, paused := false }

/-- Conversation with `trackA` playing, `trackC` queued. -/
def stPlayingQueuedC : ChatState :=
  { queue := [trackC], playing := some trackA, paused := false }

/-- State reached by enqueuing a playable stream into an empty
conversation (join succeeds) and then pausing. -/
def stPausedWitness : ChatState :=
  applyOp 0
    (applyOp 0 ChatState.empty (Op.play "https://a.mp3" "u" JoinResult.ok))
    (Op.pauseC CallResult.ok)

/-! ## Claim theorems -/

/-- C1 counterexample: on a conversation with a playing track and one
queued track, a failing change-stream call during `play_next` leaves the
popped track in the `playing` slot (not reverted to absent) and the
exception escapes to the caller — refuting the claim that a failed
advance reverts `playing`. -/
theorem advance_change_failure_not_reverted_cex :
    (play_next 1 stPlayingQueued CallResult.err CallResult.ok).state.playing
        = some trackB ∧
    (play_next 1 stPlayingQueued CallResult.err CallResult.ok).calls
        = [TCall.changeStream 1 "sb"] ∧
    (play_next 1 stPlayingQueued CallResult.err CallResult.ok).raised = true :=
  ⟨rfl, rfl, rfl⟩

/-- C1 (amended): after a track is popped into the playing slot, a failed
transport join during `AttemptJoinAndPlay` (either failure class) reverts
`playing` to absent; but a failed change-stream during Advance
(`play_next`) does NOT revert — the popped track stays in `playing` and
the exception propagates to the caller. -/
theorem transport_failure_playing_after_pop (chatId : Int) (s : ChatState)
    (jr : JoinResult) (lr : CallResult) (t : Track) (rest : List Track)
    (hq : s.queue = t :: rest) (hp : s.playing = none) (hjr : jr ≠ .ok) :
    (ensure_join_and_play chatId s jr).state.playing = none ∧
    (play_next chatId s .err lr).state.playing = some t ∧
    (play_next chatId s .err lr).raised = true := by
  refine ⟨?_, ?_, ?_⟩
  · unfold ensure_join_and_play
    cases jr with
    | ok => exact absurd rfl hjr
    | noActiveGroupCall => simp [hp, hq]
    | otherError => simp [hp, hq]
  · unfold play_next
    simp [hq]
  · unfold play_next
    simp [hq]

theorem transport_failure_playing_after_pop_witness :
    (ensure_join_and_play 5 stQueuedOnly JoinResult.noActiveGroupCall).state.playing
        = none ∧
    (play_next 5 stQueuedOnly CallResult.err CallResult.ok).state.playing
        = some trackB ∧
    (play_next 5 stQueuedOnly CallResult.err CallResult.ok).raised = true :=
  transport_failure_playing_after_pop 5 stQueuedOnly
    JoinResult.noActiveGroupCall CallResult.ok trackB [] rfl rfl (by decide)

/-- C2: in every conversation state reachable from the empty initial state
by any sequence of operations, `paused = true` implies a track is
playing. -/
theorem reachable_paused_implies_playing (chatId : Int) (s : ChatState)
    (h : Reachable chatId s) : s.paused = true → s.playing.isSome = true := by
  induction h with
  | init => intro hp; exact absurd hp (by decide)
  | step op hr ih =>
    rename_i sPrev
    have hs := applyOp_shape chatId sPrev op
    rcases hs with ⟨h1, h2⟩ | h1 | h1
    · intro hp; rw [h2]; exact ih (h1 ▸ hp)
    · intro hp; rw [h1] at hp; cases hp
    · intro _; exact h1

theorem reachable_paused_implies_playing_witness :
    stPausedWitness.playing.isSome = true :=
  reachable_paused_implies_playing 0 stPausedWitness
    (Reachable.step (Op.pauseC CallResult.ok)
      (Reachable.step (Op.play "https://a.mp3" "u" JoinResult.ok)
        Reachable.init))
    (by decide)

/-- C3: when `AttemptJoinAndPlay` pops a track and the join fails with
`NoActiveGroupCall`, `playing` reverts to absent, the popped track is
dropped (the queue is exactly the remaining tail — not re-inserted), and
the requester is sent the "start the voice chat first" message. -/
theorem no_active_call_drops_track (chatId : Int) (s : ChatState) (t : Track)
    (rest : List Track) (hp : s.playing = none) (hq : s.queue = t :: rest) :
    (ensure_join_and_play chatId s .noActiveGroupCall).state
        = { queue := rest, playing := none, paused := false } ∧
    (ensure_join_and_play chatId s .noActiveGroupCall).calls
        = [TCall.joinGroupCall chatId t.source] ∧
    (ensure_join_and_play chatId s .noActiveGroupCall).msgs
        = [Msg.vcNotActive] := by
  unfold ensure_join_and_play
  simp [hp, hq]

theorem no_active_call_drops_track_witness :
    (ensure_join_and_play 9 stQueuedOnly JoinResult.noActiveGroupCall).state
        = { queue := [], playing := none, paused := false } ∧
    (ensure_join_and_play 9 stQueuedOnly JoinResult.noActiveGroupCall).msgs
        = [Msg.vcNotActive] := by
  have h := no_active_call_drops_track 9 stQueuedOnly trackB [] rfl rfl
  exact ⟨h.1, h.2.2⟩

/-- C4: `play_next` always clears `paused`; on an empty queue it clears
`playing`, issues only a best-effort leave (no exception escapes, whatever
the leave outcome), and announces exhaustion; on a non-empty queue it pops
the head into `playing` and issues change-stream (not join) with the new
track's source — so with one queued track and a playing track, the old
track is discarded, the new one plays, and the queue is empty. -/
theorem advance_behavior (chatId : Int) (s : ChatState) (cr lr : CallResult) :
    (play_next chatId s cr lr).state.paused = false ∧
    (s.queue = [] →
      (play_next chatId s cr lr).state.playing = none ∧
      (play_next chatId s cr lr).calls = [TCall.leaveGroupCall chatId] ∧
      (play_next chatId s cr lr).msgs = [Msg.queueDone] ∧
      (play_next chatId s cr lr).raised = false) ∧
    (∀ t rest, s.queue = t :: rest →
      (play_next chatId s cr lr).state
          = { queue := rest, playing := some t, paused := false } ∧
      (play_next chatId s cr lr).calls = [TCall.changeStream chatId t.source]) := by
  refine ⟨play_next_paused_false chatId s cr lr, ?_, ?_⟩
  · intro hq
    unfold play_next
    cases cr <;> simp [hq]
  · intro t rest hq
    unfold play_next
    cases cr <;> simp [hq]

theorem advance_behavior_witness :
    (play_next 3 stPlayingQueuedC CallResult.ok CallResult.ok).state
        = { queue := [], playing := some trackC, paused := false } ∧
    (play_next 3 stPlayingQueuedC CallResult.ok CallResult.ok).calls
        = [TCall.changeStream 3 "sc"] := by
  have h := advance_behavior 3 stPlayingQueuedC CallResult.ok CallResult.ok
  exact h.2.2 trackC [] rfl

/-- C5: `stop` from any conversation state (reachable or not, hence also
from Idle) leaves the queue empty, `playing` absent, `paused` false,
issues the leave call, and swallows any leave failure (no exception
escapes for either leave outcome). -/
theorem stop_resets_state (chatId : Int) (s : ChatState) (lr : CallResult) :
    (stop_cmd chatId s lr).state
        = { queue := [], playing := none, paused := false } ∧
    (stop_cmd chatId s lr).calls = [TCall.leaveGroupCall chatId] ∧
    (stop_cmd chatId s lr).raised = false :=
  ⟨rfl, rfl, rfl⟩

theorem ensure_noop_aux (chatId : Int) (s : ChatState) (jr : JoinResult)
    (h : s.playing.isSome = true ∨ s.queue = []) :
    ensure_join_and_play chatId s jr = { state := s, calls := [], msgs := [] } := by
  unfold ensure_join_and_play
  rcases hp : s.playing with _ | p
  · rcases h with h | h
    · rw [hp] at h; exact absurd h (by decide)
    · simp [h]
  · rfl

/-- C6: `AttemptJoinAndPlay` is a no-op (state unchanged, no transport
call, no reply) whenever a track is already playing or the queue is
empty; in particular a second call right after a first one with `playing`
set again performs no transport call. -/
theorem ensure_join_noop (chatId : Int) (s : ChatState) (jr jr2 : JoinResult)
    (h : s.playing.isSome = true ∨ s.queue = []) :
    ensure_join_and_play chatId s jr = { state := s, calls := [], msgs := [] } ∧
    ensure_join_and_play chatId (ensure_join_and_play chatId s jr).state jr2
        = { state := s, calls := [], msgs := [] } := by
  have h1 := ensure_noop_aux chatId s jr h
  refine ⟨h1, ?_⟩
  rw [h1]
  exact ensure_noop_aux chatId s jr2 h

theorem ensure_join_noop_witness :
    ensure_join_and_play 2 stPlayingQueued JoinResult.ok
        = { state := stPlayingQueued, calls := [], msgs := [] } ∧
    ensure_join_and_play 2
        (ensure_join_and_play 2 stPlayingQueued JoinResult.ok).state JoinResult.ok
        = { state := stPlayingQueued, calls := [], msgs := [] } :=
  ensure_join_noop 2 stPlayingQueued JoinResult.ok JoinResult.ok (Or.inl rfl)

/-- Constructor shorthand for statements. -/
def mkState (q : List Track) (p : Option Track) (b : Bool) : ChatState :=
  ⟨q, p, b⟩

/-- The `Track` that `handle_play` builds from an accepted stream query
(title and source are both the query string). -/
def queuedTrack (q r : String) : Track :=
  ⟨q, q, r⟩

theorem ensure_ok_pops (chatId : Int) (s : ChatState) (t : Track)
    (rest : List Track) (hp : s.playing = none) (hq : s.queue = t :: rest) :
    ensure_join_and_play chatId s JoinResult.ok
        = { state := mkState rest (some t) false,
            calls := [TCall.joinGroupCall chatId t.source],
            msgs := [Msg.nowPlaying t.title t.requester] } := by
  unfold ensure_join_and_play
  simp [hp, hq, mkState]

theorem handle_play_queued (chatId : Int) (s : ChatState) (q r : String)
    (jr : JoinResult) (p : Track) (h1 : is_stream_url q = true)
    (hp : s.playing = some p) :
    handle_play chatId s q r jr
        = { state := mkState (s.queue ++ [queuedTrack q r]) s.playing s.paused,
            calls := [], msgs := [Msg.queuedAt (s.queue.length + 1)] } := by
  have hne : ¬(q = "") := by
    intro he; rw [he] at h1; exact absurd h1 (by decide)
  unfold handle_play
  simp [hne, h1, hp, mkState, queuedTrack]

theorem handle_play_empty_ok (chatId : Int) (q r : String)
    (h1 : is_stream_url q = true) :
    handle_play chatId ChatState.empty q r JoinResult.ok
        = { state := mkState [] (some (queuedTrack q r)) false,
            calls := [TCall.joinGroupCall chatId q],
            msgs := [Msg.streamAccepted, Msg.nowPlaying q r] } := by
  have hne : ¬(q = "") := by
    intro he; rw [he] at h1; exact absurd h1 (by decide)
  have he := ensure_ok_pops chatId (mkState [queuedTrack q r] none false)
    (queuedTrack q r) [] rfl rfl
  simp [handle_play, hne, h1, ChatState.empty, mkState, queuedTrack] at he ⊢
  simp [he]

/-- C7: enqueuing an accepted playable-stream query appends the track at
the queue's tail and, when something is already playing, replies with the
track's 1-based queue position (no transport call); enqueuing two
accepted stream queries into an empty conversation (join succeeding)
leaves the first track playing with an empty queue and the second track
at queue position 1. -/
theorem enqueue_behavior (chatId : Int) (s : ChatState) (q q2 r : String)
    (jr : JoinResult) (h1 : is_stream_url q = true)
    (h2 : is_stream_url q2 = true) :
    (∀ p, s.playing = some p →
      handle_play chatId s q r jr
          = { state := mkState (s.queue ++ [queuedTrack q r]) s.playing s.paused,
              calls := [], msgs := [Msg.queuedAt (s.queue.length + 1)] }) ∧
    ((handle_play chatId ChatState.empty q r JoinResult.ok).state
        = mkState [] (some (queuedTrack q r)) false ∧
     (handle_play chatId ChatState.empty q r JoinResult.ok).calls
        = [TCall.joinGroupCall chatId q] ∧
     (handle_play chatId (handle_play chatId ChatState.empty q r JoinResult.ok).state
          q2 r JoinResult.ok).state
        = mkState [queuedTrack q2 r] (some (queuedTrack q r)) false ∧
     (handle_play chatId (handle_play chatId ChatState.empty q r JoinResult.ok).state
          q2 r JoinResult.ok).msgs
        = [Msg.queuedAt 1]) := by
  refine ⟨fun p hp => handle_play_queued chatId s q r jr p h1 hp, ?_, ?_, ?_, ?_⟩
  · rw [handle_play_empty_ok chatId q r h1]
  · rw [handle_play_empty_ok chatId q r h1]
  · rw [handle_play_empty_ok chatId q r h1,
      handle_play_queued chatId (mkState [] (some (queuedTrack q r)) false)
        q2 r JoinResult.ok (queuedTrack q r) h2 rfl]
    rfl
  · rw [handle_play_empty_ok chatId q r h1,
      handle_play_queued chatId (mkState [] (some (queuedTrack q r)) false)
        q2 r JoinResult.ok (queuedTrack q r) h2 rfl]
    rfl

theorem enqueue_behavior_witness :
    (handle_play 0 ChatState.empty "https://a.mp3" "u" JoinResult.ok).state
        = mkState [] (some (queuedTrack "https://a.mp3" "u")) false ∧
    (handle_play 0
        (handle_play 0 ChatState.empty "https://a.mp3" "u" JoinResult.ok).state
        "https://b.m3u8" "u" JoinResult.ok).state
        = mkState [queuedTrack "https://b.m3u8" "u"]
            (some (queuedTrack "https://a.mp3" "u")) false ∧
    (handle_play 0
        (handle_play 0 ChatState.empty "https://a.mp3" "u" JoinResult.ok).state
        "https://b.m3u8" "u" JoinResult.ok).msgs = [Msg.queuedAt 1] := by
  have h := enqueue_behavior 0 ChatState.empty "https://a.mp3" "https://b.m3u8"
    "u" JoinResult.ok (by decide) (by decide)
  exact ⟨h.2.1, h.2.2.2.1, h.2.2.2.2⟩

/-- C8: `is_stream_url` agrees on every string with the specification's
characterisation — the trimmed, lower-cased input must start with
`http://` or `https://` and contain one of the eight fixed extensions
anywhere as a substring — and it returns `false` on the empty string. -/
theorem is_stream_url_matches_spec (s : String) :
    is_stream_url s = isPlayableStreamSpec s ∧ is_stream_url "" = false := by
  constructor
  · simp only [is_stream_url, isPlayableStreamSpec, is_url, pyNorm_idem]
  · decide

/-- C9 counterexample: `"youtu.be/dQw4w9WgXcQ"` does not start with
`http://` or `https://` (raw or normalised), yet `is_youtube` returns
`true` on it — refuting "IsVideoHostLink returns false for every string
not starting with the URL schemes". -/
theorem is_youtube_without_scheme_cex :
    is_youtube "youtu.be/dQw4w9WgXcQ" = true ∧
    is_url "youtu.be/dQw4w9WgXcQ" = false ∧
    is_stream_url "youtu.be/dQw4w9WgXcQ" = false ∧
    startsWithPy "youtu.be/dQw4w9WgXcQ" "http://" = false ∧
    startsWithPy "youtu.be/dQw4w9WgXcQ" "https://" = false := by
  decide

/-- C9 (amended): for every string whose trimmed lower-casing does not
start with `http://` or `https://`, `is_url` and `is_stream_url` return
`false`; `is_youtube`, however, ignores the URL scheme entirely — it is
true iff the trimmed lower-cased string contains one of the three
video-host patterns as a substring. -/
theorem classifier_scheme_guard (s : String)
    (h1 : startsWithPy (pyNorm s) "http://" = false)
    (h2 : startsWithPy (pyNorm s) "https://" = false) :
    is_url s = false ∧ is_stream_url s = false ∧
    is_youtube s = ytPatterns.any (fun p => containsSub (pyNorm s) p) := by
  have hu : is_url s = false := by
    simp only [is_url]
    rw [h1, h2]
    rfl
  refine ⟨hu, ?_, rfl⟩
  simp only [is_stream_url, is_url, pyNorm_idem]
  rw [h1, h2]
  rfl

theorem classifier_scheme_guard_witness :
    is_url "youtu.be/abc" = false ∧ is_stream_url "youtu.be/abc" = false ∧
    is_youtube "youtu.be/abc"
        = ytPatterns.any (fun p => containsSub (pyNorm "youtu.be/abc") p) :=
  classifier_scheme_guard "youtu.be/abc" (by decide) (by decide)

/-- C10: when `/cplay`'s first argument starts with neither `@` nor the
literal prefix `-100` (a plain positive numeric id included), no target
token is produced, all arguments are folded into the query string, and
the resolver returns the invoking conversation's own id. -/
theorem cplay_plain_token_own_chat (ownChatId : Int)
    (lookup : String → Option Int) (first : String) (rest : List String)
    (hAt : startsWithPy first "@" = false)
    (hNum : startsWithPy first "-100" = false) :
    parse_c_command (first :: rest)
        = (none, pyStrip (String.intercalate " " (first :: rest))) ∧
    cplay_target ownChatId lookup (first :: rest) = some ownChatId := by
  have hp : parse_c_command (first :: rest)
      = (none, pyStrip (String.intercalate " " (first :: rest))) := by
    simp [parse_c_command, hAt, hNum]
  refine ⟨hp, ?_⟩
  unfold cplay_target
  rw [hp]
  rfl

theorem cplay_plain_token_own_chat_witness :
    parse_c_command ["12345", "song"]
        = (none, pyStrip (String.intercalate " " ["12345", "song"])) ∧
    cplay_target 42 (fun _ => none) ["12345", "song"] = some 42 :=
  cplay_plain_token_own_chat 42 (fun _ => none) "12345" ["song"]
    (by decide) (by decide)

end Musikkk
